import Mathlib

/-!
Shallow embedding of the ChatServer repository (Rust, files src/user.rs,
src/auth.rs, src/channel.rs, src/voice.rs, src/client.rs, src/main.rs), and
verification of the frozen claims about it.

Conventions of the embedding:
- Rust `HashMap<String, V>` becomes an association list `List (String × V)`;
  `get`/`contains_key` become `List.lookup`/`isSome`, `get_mut` followed by an
  in-place mutation becomes `updateFirst` (the map rewrites exactly one entry
  per key), `values()` iteration becomes iteration over the list.
- `&mut self` methods become functions returning the new state (paired with
  the Rust return value where there is one).
- Rust `String::len` is the UTF-8 byte length, embedded as
  `String.utf8ByteSize`; `is_empty()` is embedded as equality with `""`.
- External collaborators are modelled by their contracts: bcrypt's salted
  `hash`/`verify` pair as a pure injective hash with a matching verifier, and
  the file persistence (`save_database`, `save_channels`, `fs` calls) as
  always succeeding, since the claims under scrutiny do not concern
  persistence failures.
- `Uuid` session identifiers are modelled as `Nat`.
-/

namespace ChatServer

/-- Identity of an authenticated user (src/user.rs `User`). Only the display
name participates in `auth.rs`'s behaviour (`User::new(username)`), so the
embedding carries the name. -/
structure User where
  name : String
deriving Repr, DecidableEq

/-! ## Association-list operations mirroring `HashMap` usage -/

/-- Rewrites the first entry with key `k` through `f`, leaving the rest
unchanged: the embedding of `HashMap::get_mut(k)` followed by an in-place
mutation of the found value (a `HashMap` holds at most one entry per key). -/
def updateFirst {α : Type} (l : List (String × α)) (k : String) (f : α → α) :
    List (String × α) :=
  match l with
  | [] => []
  | (k', v) :: rest =>
      if k' == k then (k', f v) :: rest else (k', v) :: updateFirst rest k f

/-! ## AuthGate (src/auth.rs) -/

/-- Salted credential hashing (the external bcrypt collaborator of
`AuthManager::register`), modelled as a pure injective hash. -/
def bcryptHash (password : String) : String :=
  "$2b$" ++ password

/-- Hash verification (the external bcrypt collaborator of
`AuthManager::login`); `verify` succeeds exactly on the hash that
`bcryptHash` produced for the password. -/
def bcryptVerify (password stored_hash : String) : Bool :=
  stored_hash == bcryptHash password

/-- Character class of the username regex `^[a-zA-Z0-9_-]+$`
(src/auth.rs line 96). -/
def isUsernameChar (c : Char) : Bool :=
  c.isAlpha || c.isDigit || c == '_' || c == '-'

/-- `Regex::is_match` for `^[a-zA-Z0-9_-]+$`: the string is non-empty and
every character lies in the class. -/
def matchesUsernameRegex (s : String) : Bool :=
  (s != "") && s.data.all isUsernameChar

/-- The user store of `AuthManager` (src/auth.rs `UserDatabase`): a map from
username to password hash. The `file_path` field and the persistence calls
(`save_database`, modelled as succeeding) are the external Auth Store. -/
structure AuthManager where
  users : List (String × String)
deriving Repr, DecidableEq

/-- Embeds `AuthManager::validate_username` (src/auth.rs lines 87-104). -/
def validate_username (username : String) : Except String Unit :=
  if username = "" then
    .error "Username cannot be empty"
  else if username.utf8ByteSize > 32 then
    .error "Username too long (max 32 characters)"
  else if matchesUsernameRegex username then
    .ok ()
  else
    .error "Username can only contain letters, numbers, underscores, and hyphens"

/-- Embeds `AuthManager::validate_password` (src/auth.rs lines 106-120). -/
def validate_password (password : String) : Except String Unit :=
  if password = "" then
    .error "Password cannot be empty"
  else if password.utf8ByteSize < 8 then
    .error "Password must be at least 8 characters long"
  else if password.utf8ByteSize > 128 then
    .error "Password too long (max 128 characters)"
  else
    .ok ()

/-- Embeds `AuthManager::register` (src/auth.rs lines 36-51). The `&mut self`
receiver becomes an explicit state: the function returns the Rust result and
the store after the call. Hashing and `save_database` succeed (external
collaborators). -/
def register (am : AuthManager) (username password : String) :
    Except String User × AuthManager :=
  match validate_username username with
  | .error e => (.error e, am)
  | .ok () =>
    match validate_password password with
    | .error e => (.error e, am)
    | .ok () =>
      if (List.lookup username am.users).isSome then
        (.error "Username already exists", am)
      else
        (.ok ⟨username⟩, ⟨(username, bcryptHash password) :: am.users⟩)

/-- Embeds `AuthManager::login` (src/auth.rs lines 53-68); `&self` only, so no
state is returned. -/
def login (am : AuthManager) (username password : String) :
    Except String User :=
  match validate_username username with
  | .error e => .error e
  | .ok () =>
    match validate_password password with
    | .error e => .error e
    | .ok () =>
      match List.lookup username am.users with
      | some stored_hash =>
          if bcryptVerify password stored_hash then
            .ok ⟨username⟩
          else
            .error "Invalid password"
      | none => .error "Username not found"

/-- The outcome of `register` exactly as claim C4 enumerates it, with the
check order corrected to the code's actual order: the username format checks
(empty, too long, character class), then the password checks (empty, too
short, too long), then existence in the store, then success. Claim C4's
parenthetical asserted existence is checked before the password; the code
checks the password first. -/
def registerSpecC4 (am : AuthManager) (username password : String) :
    Except String User × AuthManager :=
  if username = "" then
    (.error "Username cannot be empty", am)
  else if username.utf8ByteSize > 32 then
    (.error "Username too long (max 32 characters)", am)
  else if ¬ matchesUsernameRegex username then
    (.error
      "Username can only contain letters, numbers, underscores, and hyphens",
     am)
  else if password = "" then
    (.error "Password cannot be empty", am)
  else if password.utf8ByteSize < 8 then
    (.error "Password must be at least 8 characters long", am)
  else if password.utf8ByteSize > 128 then
    (.error "Password too long (max 128 characters)", am)
  else if (List.lookup username am.users).isSome then
    (.error "Username already exists", am)
  else
    (.ok ⟨username⟩, ⟨(username, bcryptHash password) :: am.users⟩)

/-! ## ChannelDirectory (src/channel.rs) -/

/-- Kind of a channel (src/channel.rs `ChannelType`). -/
inductive ChannelType where
  | Text
  | Voice
deriving Repr, DecidableEq

/-- A channel (src/channel.rs `Channel`): name, kind, member list. -/
structure Channel where
  name : String
  channel_type : ChannelType
  users : List String
deriving Repr, DecidableEq

/-- Embeds `Channel::new` (src/channel.rs lines 19-25): empty member list. -/
def Channel.new (name : String) (channel_type : ChannelType) : Channel :=
  { name := name, channel_type := channel_type, users := [] }

/-- The channel table of `ChannelManager` (src/channel.rs lines 28-31). The
`config_file` field and `save_channels`/`load_channels` are the external
Config Store; saving is modelled as succeeding. -/
structure ChannelManager where
  channels : List (String × Channel)
deriving Repr, DecidableEq

namespace ChannelManager

/-- Embeds `ChannelManager::create_channel` (src/channel.rs lines 60-75):
returns whether a channel was created, and the table after the call. -/
def create_channel (cm : ChannelManager) (name : String)
    (channel_type : ChannelType) : Bool × ChannelManager :=
  if (List.lookup name cm.channels).isSome then
    (false, cm)
  else
    (true, ⟨(name, Channel.new name channel_type) :: cm.channels⟩)

/-- Embeds `ChannelManager::channel_exists` (src/channel.rs lines 77-79). -/
def channel_exists (cm : ChannelManager) (name : String) : Bool :=
  (List.lookup name cm.channels).isSome

/-- Embeds `ChannelManager::get_channel` (src/channel.rs lines 81-83). -/
def get_channel (cm : ChannelManager) (name : String) : Option Channel :=
  List.lookup name cm.channels

/-- Embeds `ChannelManager::join_channel` (src/channel.rs lines 85-91):
pushes the username onto the channel's member list only when it is not
already present; no-op when the channel does not exist. -/
def join_channel (cm : ChannelManager) (channel_name : String)
    (username : String) : ChannelManager :=
  ⟨updateFirst cm.channels channel_name (fun ch =>
      if ch.users.contains username then ch
      else { ch with users := ch.users ++ [username] })⟩

/-- Embeds `ChannelManager::leave_channel` (src/channel.rs lines 93-97):
`retain(|u| u != username)`. -/
def leave_channel (cm : ChannelManager) (channel_name : String)
    (username : String) : ChannelManager :=
  ⟨updateFirst cm.channels channel_name (fun ch =>
      { ch with users := ch.users.filter (fun u => u != username) })⟩

/-- Embeds `ChannelManager::leave_all_channels` (src/channel.rs lines
99-103): the retain runs over every channel (`values_mut`). -/
def leave_all_channels (cm : ChannelManager) (username : String) :
    ChannelManager :=
  ⟨cm.channels.map (fun p =>
      (p.1, { p.2 with users := p.2.users.filter (fun u => u != username) }))⟩

/-- Embeds `ChannelManager::list_channels` (src/channel.rs lines 105-109). -/
def list_channels (cm : ChannelManager) :
    List (String × ChannelType × Nat) :=
  cm.channels.map (fun p => (p.2.name, p.2.channel_type, p.2.users.length))

end ChannelManager

/-- The four default channels seeded by `ChannelManager::load_channels` when
the Config Store holds no data (src/channel.rs lines 113-118). -/
def defaultDirectory : ChannelManager :=
  ⟨[("general", Channel.new "general" .Text),
    ("random", Channel.new "random" .Text),
    ("voice-lobby", Channel.new "voice-lobby" .Voice),
    ("gaming", Channel.new "gaming" .Voice)]⟩

/-- A directory with no channels (the state loaded from an empty persisted
channel table). -/
def emptyDirectory : ChannelManager := ⟨[]⟩

/-! ## VoiceRegistry (src/voice.rs) -/

/-- A voice session (src/voice.rs `VoiceSession`). -/
structure VoiceSession where
  username : String
  channel : String
  is_muted : Bool
  is_deafened : Bool
deriving Repr, DecidableEq

/-- Embeds `VoiceSession::new` (src/voice.rs lines 12-19). -/
def VoiceSession.new (username channel : String) : VoiceSession :=
  { username := username, channel := channel,
    is_muted := false, is_deafened := false }

/-- The registry of `VoiceChannelManager` (src/voice.rs lines 22-24), keyed
by username. -/
structure VoiceChannelManager where
  sessions : List (String × VoiceSession)
deriving Repr, DecidableEq

namespace VoiceChannelManager

/-- Embeds `VoiceChannelManager::toggle_deafen` (src/voice.rs lines 51-59):
flips `is_deafened`; when the new value is `true` it also forces
`is_muted := true`; returns the new `is_deafened`, or `none` when the
username has no voice session (in which case the registry is unchanged). -/
def toggle_deafen (vm : VoiceChannelManager) (username : String) :
    Option Bool × VoiceChannelManager :=
  match List.lookup username vm.sessions with
  | none => (none, vm)
  | some s =>
      let d := !s.is_deafened
      (some d,
       ⟨updateFirst vm.sessions username (fun t =>
          { t with is_deafened := !t.is_deafened,
                   is_muted := if !t.is_deafened then true else t.is_muted })⟩)

end VoiceChannelManager

/-! ## SessionRegistry and BroadcastDispatcher (src/client.rs, src/main.rs) -/

/-- A live client session (src/client.rs `Client`). The `Uuid` is modelled as
a `Nat`; the owned `TcpStream` transport handle carries no state relevant to
the claims and is omitted — `broadcast_to_channel` below returns the clients
it writes to instead of performing the writes. -/
structure Client where
  id : Nat
  user : User
  current_channel : Option String
deriving Repr, DecidableEq

/-- Embeds the recipient computation of `broadcast_to_channel` (src/main.rs
lines 411-447): resolve the channel's member list (empty when the channel
does not exist, `unwrap_or_default`), then filter the registered clients to
those whose identity is in the member list and whose id is not the excluded
one. The returned list is exactly the set of clients the function writes the
message to (writes succeed; the prune-on-failed-write branch is not
exercised). -/
def broadcast_to_channel (clients : List Client) (cm : ChannelManager)
    (channel_name : String) (exclude_client_id : Option Nat) : List Client :=
  let channel_users :=
    match cm.get_channel channel_name with
    | some ch => ch.users
    | none => []
  clients.filter (fun client =>
    channel_users.contains client.user.name &&
      exclude_client_id != some client.id)

/-! ## ConnectionListener admission control (src/main.rs) -/

/-- `MAX_CONNECTIONS` (src/main.rs line 19). -/
def MAX_CONNECTIONS : Nat := 100

/-- Embeds `Server::increment_connection_count` (src/main.rs lines 57-69):
increments the counter and reports `true` only while below the bound. -/
def increment_connection_count (count : Nat) : Bool × Nat :=
  if count < MAX_CONNECTIONS then (true, count + 1) else (false, count)

/-- Embeds `Server::decrement_connection_count` (src/main.rs lines 71-75):
`saturating_sub 1`. -/
def decrement_connection_count (count : Nat) : Nat :=
  count - 1

/-- The decision points of one `handle_client` run (src/main.rs lines
80-190) that choose between its exit paths: whether
`stream.set_read_timeout` at line 82 succeeds, the result of
`authenticate_client` at line 84, and whether `Client::new`/`try_clone` at
line 94 succeeds. -/
structure HandleClientRun where
  set_timeout_ok : Bool
  auth_result : Except String User
  client_new_ok : Bool
deriving Repr

/-- How many times the `handle_client` run calls
`decrement_connection_count`, per exit path of src/main.rs lines 80-190:
the `?` at line 82 and the early `return`s at lines 88 (authentication
failure) and 98 (client-session creation failure) all leave the function
before the single `server.decrement_connection_count()` call at line 186,
which only the path reaching the read loop executes. -/
def handle_client_decrements (run : HandleClientRun) : Nat :=
  if !run.set_timeout_ok then 0
  else
    match run.auth_result with
    | .error _ => 0
    | .ok _ => if !run.client_new_ok then 0 else 1

/-! ## Lock discipline traces (src/main.rs) -/

/-- The three exclusive locks of the `Server` struct that the concurrency
claims govern (src/main.rs lines 24-27): the client/session table, the
channel table, and the voice table. -/
inductive LockId where
  | clientTable
  | channelTable
  | voiceTable
deriving Repr, DecidableEq

/-- One observable event of a handler execution: acquiring or releasing one
of the three locks, or a transport write (`stream.write_all` or a write to a
recipient's stream). -/
inductive Event where
  | acquire (l : LockId)
  | release (l : LockId)
  | transportWrite
deriving Repr, DecidableEq

/-- Lock/IO trace of `get_client_current_channel` (src/main.rs lines
192-196): it locks the client table, reads, and releases. -/
def get_client_current_channel_trace : List Event :=
  [.acquire .clientTable, .release .clientTable]

/-- Lock/IO trace of `broadcast_to_channel` (src/main.rs lines 411-447),
with `recipients` successful writes: lock and release the channel table to
clone the member list (lines 417-423), lock and release the client table to
clone the recipients (lines 426-436), then write to each recipient with no
lock held (lines 439-446). -/
def broadcast_to_channel_trace (recipients : Nat) : List Event :=
  [.acquire .channelTable, .release .channelTable,
   .acquire .clientTable, .release .clientTable] ++
    List.replicate recipients .transportWrite

/-- Lock/IO trace of `handle_join_command` (src/main.rs lines 271-314). The
channel-manager lock acquired at line 278 is a guard that lives to the end
of the function, so every later event happens while it is held: the
channel-missing reply at line 281, the client-table lock inside
`get_client_current_channel` at line 286, the departure broadcast at line
291 (when the client had a channel), the client-table lock at lines
301-305, the confirmation write at line 307, and the arrival broadcast at
line 308. The parameters select the path: argument arity (line 272),
whether the channel exists (line 280), whether the client had an old
channel (line 289), and the per-broadcast recipient count. -/
def handle_join_command_trace (arity_ok : Bool) (channel_exists : Bool)
    (had_old_channel : Bool) (recipients : Nat) : List Event :=
  if !arity_ok then [.transportWrite]
  else
    [.acquire .channelTable] ++
      (if !channel_exists then
        [.transportWrite, .release .channelTable]
      else
        get_client_current_channel_trace ++
          (if had_old_channel then broadcast_to_channel_trace recipients
           else []) ++
          [.acquire .clientTable, .release .clientTable, .transportWrite] ++
          broadcast_to_channel_trace recipients ++
          [.release .channelTable])

/-- Checks whether a trace performs a transport write while at least one
lock is held, starting from the given list of held locks. -/
def ioUnderLock (held : List LockId) : List Event → Bool
  | [] => false
  | .transportWrite :: rest => !held.isEmpty || ioUnderLock held rest
  | .acquire l :: rest => ioUnderLock (l :: held) rest
  | .release l :: rest => ioUnderLock (held.erase l) rest

/-- Checks whether a trace ever acquires a lock while one is already held
(covering both holding two distinct locks at once and re-acquiring a lock
the handler already holds). -/
def multiLock (held : List LockId) : List Event → Bool
  | [] => false
  | .transportWrite :: rest => multiLock held rest
  | .acquire l :: rest => !held.isEmpty || multiLock (l :: held) rest
  | .release l :: rest => multiLock (held.erase l) rest

/-! ## Directory operation sequences (for the reachable-state invariant) -/

/-- One mutating call on the channel directory: the operations reachable
from `handle_create_command`, `handle_join_command` and the disconnect
cleanup of src/main.rs. -/
inductive DirOp where
  | create (name : String) (channel_type : ChannelType)
  | join (name : String) (username : String)
  | leave (name : String) (username : String)
  | leaveAll (username : String)
deriving Repr

/-- Applies one directory operation (the state part of the call). -/
def applyOp (cm : ChannelManager) : DirOp → ChannelManager
  | .create n t => (cm.create_channel n t).2
  | .join n u => cm.join_channel n u
  | .leave n u => cm.leave_channel n u
  | .leaveAll u => cm.leave_all_channels u

/-- Runs a sequence of directory operations from a start state. -/
def runOps (cm : ChannelManager) (ops : List DirOp) : ChannelManager :=
  ops.foldl applyOp cm

/-- Every channel's member list holds each identity at most once. -/
def NodupMembers (cm : ChannelManager) : Prop :=
  ∀ p ∈ cm.channels, p.2.users.Nodup

/-! ## Helper lemmas and claim theorems -/

theorem lookup_updateFirst_self {α : Type} (l : List (String × α)) (k : String)
    (f : α → α) :
    List.lookup k (updateFirst l k f) = (List.lookup k l).map f := by
  induction l with
  | nil => rfl
  | cons p rest ih =>
      obtain ⟨k', v⟩ := p
      by_cases h : k' = k
      · subst h
        simp [updateFirst, List.lookup]
      · have h1 : (k' == k) = false := beq_eq_false_iff_ne.mpr h
        have h2 : (k == k') = false := beq_eq_false_iff_ne.mpr (Ne.symm h)
        simp [updateFirst, List.lookup, h1, h2, ih]

theorem updateFirst_of_lookup_fixed {α : Type} (l : List (String × α))
    (k : String) (f : α → α) (v : α)
    (hv : List.lookup k l = some v) (hfix : f v = v) :
    updateFirst l k f = l := by
  induction l with
  | nil => simp [List.lookup] at hv
  | cons p rest ih =>
      obtain ⟨k', w⟩ := p
      by_cases h : k' = k
      · subst h
        simp only [List.lookup, beq_self_eq_true, Option.some.injEq] at hv
        simp [updateFirst, hv ▸ hfix]
      · have h1 : (k' == k) = false := beq_eq_false_iff_ne.mpr h
        have h2 : (k == k') = false := beq_eq_false_iff_ne.mpr (Ne.symm h)
        simp only [List.lookup, h2, cond_false] at hv
        simp [updateFirst, h1, ih hv]

theorem lookup_map_values {α β : Type} (l : List (String × α)) (k : String)
    (g : α → β) :
    List.lookup k (l.map (fun p => (p.1, g p.2))) =
      (List.lookup k l).map g := by
  induction l with
  | nil => rfl
  | cons p rest ih =>
      obtain ⟨k', v⟩ := p
      by_cases h : k = k'
      · subst h
        simp [List.lookup]
      · have h2 : (k == k') = false := beq_eq_false_iff_ne.mpr h
        simp [List.lookup, h2, ih]


/-- Claim C1 (code bug evidence). The claim says the handler decrements the
connection counter exactly once on every exit path, including authentication
failure and client-session-creation failure. Evaluating the embedded exit
paths of `handle_client` shows the decrement count is 0 on the
authentication-failure path (early return at src/main.rs line 88) and on the
client-creation-failure path (early return at line 98); only the normal path
through the read loop decrements once (line 186). The admitted connection's
increment is therefore never undone on those paths. -/
theorem handle_client_decrement_leak :
    handle_client_decrements
        ⟨true, .error "Login failed: Invalid password", true⟩ = 0 ∧
    handle_client_decrements ⟨true, .ok ⟨"alice"⟩, false⟩ = 0 ∧
    handle_client_decrements ⟨true, .ok ⟨"alice"⟩, true⟩ = 1 :=
  ⟨rfl, rfl, rfl⟩

/-- Claim C3 (code bug evidence). The claim says no exclusive lock is held
across transport I/O, no path holds two of the locks at once, and in
particular the /join handler releases the channel-table lock before the
departure and arrival broadcasts. On the /join path where the channel exists
and the client had an old channel, the trace of `handle_join_command`
(src/main.rs lines 271-314) both performs transport writes while the
channel-table lock is held and acquires further locks (including the
channel-table lock itself, inside `broadcast_to_channel`) while it is held;
`broadcast_to_channel` in isolation (lines 411-447) satisfies both
disciplines. -/
theorem join_lock_discipline_violation :
    ioUnderLock [] (handle_join_command_trace true true true 1) = true ∧
    multiLock [] (handle_join_command_trace true true true 1) = true ∧
    ioUnderLock [] (broadcast_to_channel_trace 1) = false ∧
    multiLock [] (broadcast_to_channel_trace 1) = false := by
  decide

/-- Claim C7: `create_channel` returns false and leaves the directory
unchanged when the name already exists, and otherwise inserts a channel of
the given kind with an empty member set and returns true; creating a name as
Voice and then creating the same name as Text returns false on the second
call and the stored channel's kind is still Voice. -/
theorem create_channel_spec (cm : ChannelManager) (name : String)
    (t : ChannelType) :
    ((List.lookup name cm.channels).isSome →
       cm.create_channel name t = (false, cm)) ∧
    (List.lookup name cm.channels = none →
       cm.create_channel name t =
         (true, ⟨(name, Channel.new name t) :: cm.channels⟩) ∧
       (cm.create_channel name t).2.get_channel name =
         some (Channel.new name t) ∧
       (Channel.new name t).users = []) ∧
    (List.lookup name cm.channels = none →
       (cm.create_channel name .Voice).2.create_channel name .Text =
         (false, (cm.create_channel name .Voice).2) ∧
       ((cm.create_channel name .Voice).2.create_channel name
           .Text).2.get_channel name = some (Channel.new name .Voice) ∧
       (Channel.new name .Voice).channel_type = .Voice) := by
  refine ⟨?_, ?_, ?_⟩
  · intro h
    simp [ChannelManager.create_channel, h]
  · intro h
    simp [ChannelManager.create_channel, ChannelManager.get_channel, h,
      List.lookup, Channel.new]
  · intro h
    simp [ChannelManager.create_channel, ChannelManager.get_channel, h,
      List.lookup, Channel.new]

/-- Witness for `create_channel_spec` at a concrete directory: creating
"lobby" as Voice and then as Text in the empty directory returns false on
the second call with the state unchanged, and the stored kind is Voice. -/
theorem create_channel_spec_witness :
    (emptyDirectory.create_channel "lobby" .Voice).2.create_channel "lobby"
        .Text =
      (false, (emptyDirectory.create_channel "lobby" .Voice).2) ∧
    ((emptyDirectory.create_channel "lobby" .Voice).2.create_channel "lobby"
        .Text).2.get_channel "lobby" =
      some (Channel.new "lobby" .Voice) ∧
    (Channel.new "lobby" .Voice).channel_type = .Voice :=
  (create_channel_spec emptyDirectory "lobby" .Text).2.2 rfl

/-- Claim C8: for an identity with a voice session, `toggle_deafen` returns
the flipped deafened flag and stores a session whose deafened flag is
flipped and whose muted flag is forced to true exactly when the new deafened
value is true (un-deafening keeps muted as it was); for an identity with no
voice session it returns nothing and leaves the registry unchanged. -/
theorem toggle_deafen_spec (vm : VoiceChannelManager) (u : String) :
    (List.lookup u vm.sessions = none → vm.toggle_deafen u = (none, vm)) ∧
    (∀ s, List.lookup u vm.sessions = some s →
       (vm.toggle_deafen u).1 = some (!s.is_deafened) ∧
       List.lookup u (vm.toggle_deafen u).2.sessions =
         some { s with is_deafened := !s.is_deafened,
                       is_muted :=
                         if s.is_deafened then s.is_muted else true }) := by
  constructor
  · intro h
    unfold VoiceChannelManager.toggle_deafen
    rw [h]
  · intro s hs
    unfold VoiceChannelManager.toggle_deafen
    rw [hs]
    refine ⟨rfl, ?_⟩
    show List.lookup u (updateFirst vm.sessions u _) = _
    rw [lookup_updateFirst_self, hs]
    cases hd : s.is_deafened <;> simp [hd]

/-- Witness for `toggle_deafen_spec`: deafening an undeafened, unmuted
session stores deafened = true and muted = true and returns true. -/
theorem toggle_deafen_spec_witness :
    ((⟨[("alice", ⟨"alice", "voice-lobby", false, false⟩)]⟩ :
        VoiceChannelManager).toggle_deafen "alice").1 = some true ∧
    List.lookup "alice"
        ((⟨[("alice", ⟨"alice", "voice-lobby", false, false⟩)]⟩ :
          VoiceChannelManager).toggle_deafen "alice").2.sessions =
      some ⟨"alice", "voice-lobby", true, true⟩ :=
  (toggle_deafen_spec ⟨[("alice", ⟨"alice", "voice-lobby", false, false⟩)]⟩
      "alice").2 ⟨"alice", "voice-lobby", false, false⟩ rfl

/-- Claim C4 counterexample. The claim's fixed order puts existence before
password, so for the username "alice" already in the store and the too-short
password "short" it predicts the already-exists error; `register` instead
returns the password-too-short error, because src/auth.rs validates the
password (line 38) before checking existence (line 40). -/
theorem register_order_counterexample :
    (register ⟨[("alice", bcryptHash "password1")]⟩ "alice" "short").1 =
      .error "Password must be at least 8 characters long" ∧
    (List.lookup "alice"
        (⟨[("alice", bcryptHash "password1")]⟩ : AuthManager).users).isSome =
      true ∧
    ("Password must be at least 8 characters long" : String) ≠
      "Username already exists" :=
  ⟨rfl, rfl, by decide⟩

/-- Claim C4 as amended: `register` fails with the listed errors under the
listed conditions, applied in the code's fixed order — username format
checks (empty, longer than 32 bytes, character class), then password checks
(empty, shorter than 8 bytes, longer than 128 bytes), then existence — and
otherwise succeeds; the error for a given bad input is therefore
deterministic. Stated as: `register` equals the flat decision tree
`registerSpecC4` written in exactly that order. -/
theorem register_matches_corrected_order (am : AuthManager)
    (u p : String) :
    register am u p = registerSpecC4 am u p := by
  unfold register registerSpecC4 validate_username validate_password
  by_cases h1 : u = "" <;>
    by_cases h2 : u.utf8ByteSize > 32 <;>
      by_cases h3 : matchesUsernameRegex u <;>
        by_cases h4 : p = "" <;>
          by_cases h5 : p.utf8ByteSize < 8 <;>
            by_cases h6 : p.utf8ByteSize > 128 <;>
              simp [h1, h2, h3, h4, h5, h6]

/-- Claim C5: for a username and password that pass validation and a
username not yet in the store, `register` succeeds and an immediate `login`
with the same credentials on the resulting store succeeds, both returning
the identity whose name is the username. -/
theorem register_then_login (am : AuthManager) (u p : String)
    (hu0 : u ≠ "") (hu1 : u.utf8ByteSize ≤ 32)
    (hu2 : u.data.all isUsernameChar = true)
    (hp0 : p ≠ "") (hp1 : 8 ≤ p.utf8ByteSize) (hp2 : p.utf8ByteSize ≤ 128)
    (hnew : List.lookup u am.users = none) :
    (register am u p).1 = .ok ⟨u⟩ ∧
    login (register am u p).2 u p = .ok ⟨u⟩ ∧
    (User.mk u).name = u := by
  have hvu : validate_username u = .ok () := by
    unfold validate_username matchesUsernameRegex
    simp [hu0, Nat.not_lt.mpr hu1, hu2, bne_iff_ne]
  have hvp : validate_password p = .ok () := by
    unfold validate_password
    simp [hp0, Nat.not_lt.mpr hp1, Nat.not_lt.mpr hp2]
  have hreg : register am u p =
      (.ok ⟨u⟩, ⟨(u, bcryptHash p) :: am.users⟩) := by
    unfold register
    rw [hvu, hvp]
    simp [hnew]
  refine ⟨by rw [hreg], ?_, rfl⟩
  rw [hreg]
  unfold login
  rw [hvu, hvp]
  simp [List.lookup, bcryptVerify]

/-- Witness for `register_then_login`: registering "alice" with password
"password1" in the empty store and logging in immediately both return the
identity named "alice". -/
theorem register_then_login_witness :
    (register ⟨[]⟩ "alice" "password1").1 = .ok ⟨"alice"⟩ ∧
    login (register ⟨[]⟩ "alice" "password1").2 "alice" "password1" =
      .ok ⟨"alice"⟩ ∧
    (User.mk "alice").name = "alice" :=
  register_then_login ⟨[]⟩ "alice" "password1" (by decide) (by decide)
    (by decide) (by decide) (by decide) (by decide) rfl

/-- Claim C6 counterexample. The claim predicts the user-exists error for
every password once the username is in the store; for the stored username
"bob" and the too-short password "pw", `register` returns the
password-too-short error instead, because src/auth.rs validates the
password before checking existence. -/
theorem register_existing_counterexample :
    (List.lookup "bob"
        (⟨[("bob", bcryptHash "hunter2222")]⟩ : AuthManager).users).isSome =
      true ∧
    (register ⟨[("bob", bcryptHash "hunter2222")]⟩ "bob" "pw").1 =
      .error "Password must be at least 8 characters long" ∧
    ("Password must be at least 8 characters long" : String) ≠
      "Username already exists" :=
  ⟨rfl, rfl, by decide⟩

/-- Claim C6 as amended: when the username is already in the store, the
store after `register` is identical to the store before it (so the stored
hash for that username and every other entry are unaltered) for every
password, and the result is the user-exists error whenever the username and
password pass the format validations. -/
theorem register_existing_user (am : AuthManager) (u p : String)
    (hmem : (List.lookup u am.users).isSome = true) :
    (register am u p).2 = am ∧
    (validate_username u = .ok () → validate_password p = .ok () →
       (register am u p).1 = .error "Username already exists" ∧
       List.lookup u (register am u p).2.users = List.lookup u am.users) := by
  constructor
  · unfold register
    cases hvu : validate_username u with
    | error e => rfl
    | ok v =>
        cases v
        cases hvp : validate_password p with
        | error e => rfl
        | ok w => cases w; simp [hmem]
  · intro hvu hvp
    unfold register
    rw [hvu, hvp]
    simp [hmem]

/-- Witness for `register_existing_user`: with "carol" stored, registering
"carol" again with a valid password returns the user-exists error and
leaves the store identical. -/
theorem register_existing_user_witness :
    (register ⟨[("carol", bcryptHash "password1")]⟩ "carol" "password2").2 =
      ⟨[("carol", bcryptHash "password1")]⟩ ∧
    (validate_username "carol" = .ok () →
      validate_password "password2" = .ok () →
      (register ⟨[("carol", bcryptHash "password1")]⟩ "carol"
          "password2").1 = .error "Username already exists" ∧
      List.lookup "carol"
          (register ⟨[("carol", bcryptHash "password1")]⟩ "carol"
            "password2").2.users =
        List.lookup "carol"
          (⟨[("carol", bcryptHash "password1")]⟩ : AuthManager).users) :=
  register_existing_user ⟨[("carol", bcryptHash "password1")]⟩ "carol"
    "password2" rfl

/-- Claim C2: for any state of the client and channel tables, a channel with
member set M, a message, and an optional excluded session id, the broadcast
writes to exactly the registered clients whose identity is in M and whose
session id differs from the excluded one, and to no other client; if the
channel name resolves to no channel, no client receives the message. -/
theorem broadcast_delivery (clients : List Client) (cm : ChannelManager)
    (channel_name : String) (exclude : Option Nat) :
    (∀ ch, cm.get_channel channel_name = some ch →
       ∀ c, c ∈ broadcast_to_channel clients cm channel_name exclude ↔
         (c ∈ clients ∧ c.user.name ∈ ch.users ∧ exclude ≠ some c.id)) ∧
    (cm.get_channel channel_name = none →
       broadcast_to_channel clients cm channel_name exclude = []) := by
  constructor
  · intro ch hch c
    simp [broadcast_to_channel, hch, List.mem_filter, bne_iff_ne, and_assoc]
  · intro hch
    simp [broadcast_to_channel, hch]

/-- Witness for `broadcast_delivery`: in a registry holding the one client
"alice" (id 1) and a directory where "general" has member set ["alice"], a
broadcast to "general" with no exclusion reaches that client exactly when
she is registered, a member, and not excluded. -/
theorem broadcast_delivery_witness :
    (⟨1, ⟨"alice"⟩, some "general"⟩ : Client) ∈
        broadcast_to_channel [⟨1, ⟨"alice"⟩, some "general"⟩]
          ⟨[("general", ⟨"general", .Text, ["alice"]⟩)]⟩ "general" none ↔
      ((⟨1, ⟨"alice"⟩, some "general"⟩ : Client) ∈
          [(⟨1, ⟨"alice"⟩, some "general"⟩ : Client)] ∧
        ("alice" : String) ∈ ["alice"] ∧ (none : Option Nat) ≠ some 1) :=
  (broadcast_delivery [⟨1, ⟨"alice"⟩, some "general"⟩]
      ⟨[("general", ⟨"general", .Text, ["alice"]⟩)]⟩ "general" none).1
    ⟨"general", .Text, ["alice"]⟩ rfl ⟨1, ⟨"alice"⟩, some "general"⟩

/-- Claim C9: after `leave_all_channels identity`, no channel's member set
contains the identity, membership of every other identity in every channel
is unchanged, and each entry of a subsequent `list_channels` reports the
size of the old member list with the identity filtered out. -/
theorem leave_all_spec (cm : ChannelManager) (u : String) :
    (∀ n ch, (cm.leave_all_channels u).get_channel n = some ch →
       u ∉ ch.users) ∧
    (∀ n ch ch0, (cm.leave_all_channels u).get_channel n = some ch →
       cm.get_channel n = some ch0 →
       ∀ v, v ≠ u → (v ∈ ch.users ↔ v ∈ ch0.users)) ∧
    (cm.leave_all_channels u).list_channels =
      cm.channels.map (fun p =>
        (p.2.name, p.2.channel_type,
          (p.2.users.filter (fun w => w != u)).length)) := by
  have hga : ∀ n, (cm.leave_all_channels u).get_channel n =
      (cm.get_channel n).map
        (fun ch => { ch with users := ch.users.filter (fun w => w != u) }) :=
    by
      intro n
      exact lookup_map_values cm.channels n
        (fun ch => { ch with users := ch.users.filter (fun w => w != u) })
  refine ⟨?_, ?_, ?_⟩
  · intro n ch hch
    rw [hga] at hch
    cases hl : cm.get_channel n with
    | none => rw [hl] at hch; simp at hch
    | some ch0 =>
        rw [hl] at hch
        simp only [Option.map_some', Option.some.injEq] at hch
        subst hch
        simp [List.mem_filter]
  · intro n ch ch0 hch hch0
    rw [hga, hch0] at hch
    simp only [Option.map_some', Option.some.injEq] at hch
    subst hch
    intro v hv
    simp [List.mem_filter, bne_iff_ne, hv]
  · unfold ChannelManager.leave_all_channels ChannelManager.list_channels
    simp [List.map_map]

/-- Witness for `leave_all_spec`: after removing "alice" from a directory
where "general" held ["alice", "bob"], the looked-up channel no longer
contains "alice". -/
theorem leave_all_spec_witness :
    "alice" ∉ (⟨"general", ChannelType.Text, ["bob"]⟩ : Channel).users :=
  (leave_all_spec ⟨[("general", ⟨"general", .Text, ["alice", "bob"]⟩)]⟩
      "alice").1 "general" ⟨"general", .Text, ["bob"]⟩ rfl

theorem mem_updateFirst {α : Type} (l : List (String × α)) (k : String)
    (f : α → α) (q : String × α) (hq : q ∈ updateFirst l k f) :
    q ∈ l ∨ ∃ p ∈ l, q = (p.1, f p.2) := by
  induction l with
  | nil => simp [updateFirst] at hq
  | cons p rest ih =>
      obtain ⟨k', v⟩ := p
      by_cases h : (k' == k) = true
      · rw [updateFirst, if_pos h] at hq
        rcases List.mem_cons.mp hq with h1 | h1
        · exact Or.inr ⟨(k', v), List.mem_cons_self _ _, h1⟩
        · exact Or.inl (List.mem_cons_of_mem _ h1)
      · rw [updateFirst, if_neg h] at hq
        rcases List.mem_cons.mp hq with h1 | h1
        · exact Or.inl (h1 ▸ List.mem_cons_self _ _)
        · rcases ih h1 with h2 | ⟨p', hp', h3⟩
          · exact Or.inl (List.mem_cons_of_mem _ h2)
          · exact Or.inr ⟨p', List.mem_cons_of_mem _ hp', h3⟩

theorem nodupMembers_applyOp (cm : ChannelManager) (op : DirOp)
    (h : NodupMembers cm) : NodupMembers (applyOp cm op) := by
  cases op with
  | create n t =>
      intro p hp
      by_cases hc : (List.lookup n cm.channels).isSome <;>
        simp only [applyOp, ChannelManager.create_channel, hc, if_true,
          if_false, ite_true, ite_false, reduceIte] at hp
      · exact h p hp
      · rcases List.mem_cons.mp hp with h1 | h1
        · subst h1
          simp [Channel.new]
        · exact h p h1
  | join n u =>
      intro p hp
      simp only [applyOp, ChannelManager.join_channel] at hp
      rcases mem_updateFirst _ _ _ _ hp with h1 | ⟨q, hq, h2⟩
      · exact h p h1
      · subst h2
        by_cases hc : q.2.users.contains u
        · have hm : u ∈ q.2.users := by simpa using hc
          simpa [hm] using h q hq
        · have hu : u ∉ q.2.users := by simpa using hc
          simp only [hc, Bool.false_eq_true, if_false, ite_false, reduceIte]
          simp [List.nodup_append, hu, h q hq]
  | leave n u =>
      intro p hp
      simp only [applyOp, ChannelManager.leave_channel] at hp
      rcases mem_updateFirst _ _ _ _ hp with h1 | ⟨q, hq, h2⟩
      · exact h p h1
      · subst h2
        exact (h q hq).filter _
  | leaveAll u =>
      intro p hp
      simp only [applyOp, ChannelManager.leave_all_channels] at hp
      rcases List.mem_map.mp hp with ⟨q, hq, h2⟩
      subst h2
      exact (h q hq).filter _

theorem nodupMembers_runOps (cm : ChannelManager) (ops : List DirOp)
    (h : NodupMembers cm) : NodupMembers (runOps cm ops) := by
  induction ops generalizing cm with
  | nil => exact h
  | cons op rest ih => exact ih (applyOp cm op) (nodupMembers_applyOp cm op h)

theorem nodupMembers_start (start : ChannelManager)
    (h : start = emptyDirectory ∨ start = defaultDirectory) :
    NodupMembers start := by
  rcases h with h | h <;> subst h <;> intro p hp
  · simp [emptyDirectory] at hp
  · simp only [defaultDirectory, List.mem_cons, List.not_mem_nil,
      or_false] at hp
    rcases hp with h1 | h1 | h1 | h1 <;> subst h1 <;> simp [Channel.new]

theorem join_channel_mem_noop (cm : ChannelManager) (n u : String)
    (ch : Channel) (hch : cm.get_channel n = some ch) (hu : u ∈ ch.users) :
    cm.join_channel n u = cm := by
  have hfix : (fun c => if c.users.contains u then c
      else { c with users := c.users ++ [u] }) ch = ch := by
    simp [hu]
  cases cm with
  | mk channels =>
      show ChannelManager.mk (updateFirst channels n _) =
        ChannelManager.mk channels
      rw [updateFirst_of_lookup_fixed channels n _ ch hch hfix]

/-- Claim C10: from the default-seeded or empty directory, any sequence of
create, join, leave and leave-all operations yields a state where every
channel's member list holds each identity at most once; consequently joining
a channel whose member list already holds the identity changes nothing, and
every member count reported by `list_channels` equals the number of distinct
members of that channel. -/
theorem directory_nodup_invariant (start : ChannelManager) (ops : List DirOp)
    (hstart : start = emptyDirectory ∨ start = defaultDirectory) :
    NodupMembers (runOps start ops) ∧
    (∀ n u ch, (runOps start ops).get_channel n = some ch → u ∈ ch.users →
       (runOps start ops).join_channel n u = runOps start ops) ∧
    (runOps start ops).list_channels =
      (runOps start ops).channels.map (fun p =>
        (p.2.name, p.2.channel_type, p.2.users.dedup.length)) := by
  have hnd : NodupMembers (runOps start ops) :=
    nodupMembers_runOps start ops (nodupMembers_start start hstart)
  refine ⟨hnd, ?_, ?_⟩
  · intro n u ch hch hu
    exact join_channel_mem_noop _ n u ch hch hu
  · unfold ChannelManager.list_channels
    apply List.map_congr_left
    intro p hp
    rw [List.dedup_eq_self.mpr (hnd p hp)]

/-- Witness for `directory_nodup_invariant`: the reported member counts of a
concrete run that creates "lobby" and joins "alice" twice equal the distinct
member counts. -/
theorem directory_nodup_invariant_witness :
    (runOps emptyDirectory
        [.create "lobby" .Text, .join "lobby" "alice",
         .join "lobby" "alice"]).list_channels =
      (runOps emptyDirectory
        [.create "lobby" .Text, .join "lobby" "alice",
         .join "lobby" "alice"]).channels.map (fun p =>
          (p.2.name, p.2.channel_type, p.2.users.dedup.length)) :=
  (directory_nodup_invariant emptyDirectory
      [.create "lobby" .Text, .join "lobby" "alice", .join "lobby" "alice"]
      (Or.inl rfl)).2.2

end ChatServer
